import Mathlib

/-!
Verification development for the DocGuard-AI repository.

The file embeds, as executable Lean definitions, the parts of the code that
the verified properties concern:

* the detection-normalization loop of `analyze_document`
  (src/services/paddleocr/app/main.py, lines 155-168) together with the
  pydantic models it instantiates (src/services/paddleocr/app/models.py);
* the `process_document` endpoint and `health_check` endpoint of the
  preprocessing service (src/services/preprocessing/app/public/api.py)
  with the response models (src/services/preprocessing/app/public/models.py);
* the pipeline coordinator `run_preprocessing_pipeline_with_splits`
  (module app/private/pipeline.py, absent from the available sources), which
  is modelled from the specification where so marked.

Machine integers are modelled as `Int` (Python integers are unbounded, so no
wrap-around modelling is needed); fallible steps return `Option` or `Except`.
-/

namespace DocGuard

/-! ### Data model of the layout service (src/services/paddleocr/app/models.py) -/

/-- Bounding box coordinates model (models.py, class BBox).  Each field is a
pydantic `int` with a `ge=0` constraint; constructing a `BBox` with a negative
coordinate raises a pydantic `ValidationError` (a subclass of `ValueError`).
The `ge=0` constraint is represented by `BBox.nonneg` below, checked at the
construction sites of the embedding. -/
structure BBox where
  x1 : Int
  y1 : Int
  x2 : Int
  y2 : Int
deriving Repr, DecidableEq

/-- The pydantic `ge=0` validation applied to every `BBox` field. -/
def BBox.nonneg (b : BBox) : Prop :=
  0 ≤ b.x1 ∧ 0 ≤ b.y1 ∧ 0 ≤ b.x2 ∧ 0 ≤ b.y2

instance (b : BBox) : Decidable b.nonneg := by
  unfold BBox.nonneg; infer_instance

/-- Detection result model (models.py, class Detection).  `confidence` is an
optional float that `analyze_document` never sets, so it is modelled as an
always-`none` `Option Unit` placeholder. -/
structure Detection where
  bbox : BBox
  cls : String
  confidence : Option Unit
deriving Repr, DecidableEq

/-! ### Raw layout-backend entries, as `analyze_document` sees them

`analyze_document` iterates over `parsing_res_list`, a list of JSON objects.
For each object it evaluates `map(int, obj["block_bbox"])`, unpacks exactly
four values, and reads `obj.get("block_label", "unknown")`; any
`KeyError`, `ValueError` or `TypeError` raised in the loop body (including
pydantic validation errors, which are `ValueError`s) causes the entry to be
skipped with a warning.  The raw JSON values are modelled just finely enough
to distinguish the outcomes of those operations. -/

/-- A raw bbox coordinate value: either `int(v)` succeeds and yields `n`, or
`int(v)` raises `ValueError`/`TypeError`. -/
inductive RawVal where
  | intLike (n : Int) : RawVal
  | notCoercible : RawVal
deriving Repr, DecidableEq

/-- The value found under the `block_bbox` key: either an iterable of raw
values, or a non-iterable value (on which `map` unpacking raises
`TypeError`). -/
inductive RawBBoxField where
  | vals (vs : List RawVal) : RawBBoxField
  | notIterable : RawBBoxField
deriving Repr, DecidableEq

/-- The value found under the `block_label` key: a string, or a value that is
not a string (for example JSON null), which pydantic rejects when validating
`Detection.cls`. -/
inductive RawLabel where
  | strVal (s : String) : RawLabel
  | invalidVal : RawLabel
deriving Repr, DecidableEq

/-- One raw entry of `parsing_res_list`.  `none` in a field means the key is
absent from the JSON object. -/
structure RawEntry where
  block_bbox : Option RawBBoxField
  block_label : Option RawLabel
deriving Repr, DecidableEq

/-- `int(v)` on one raw value. -/
def coerceInt : RawVal → Option Int
  | .intLike n => some n
  | .notCoercible => none

/-- `map(int, ...)` over the whole bbox value; `none` when any element raises. -/
def coerceAll : List RawVal → Option (List Int)
  | [] => some []
  | v :: vs =>
    match coerceInt v, coerceAll vs with
    | some n, some ns => some (n :: ns)
    | _, _ => none

/-- The label that `Detection` construction receives:
`obj.get("block_label", "unknown")`.  A missing key defaults to `"unknown"`;
a present non-string value fails pydantic validation of `cls` (`none`). -/
def labelOf (obj : RawEntry) : Option String :=
  match obj.block_label with
  | none => some "unknown"
  | some (.strVal s) => some s
  | some .invalidVal => none

/-- The bbox an entry contributes when it is usable: the `block_bbox` key is
present, iterable, yields exactly four int-coercible coordinates, and all four
pass the `ge=0` validation of `BBox`.  Returns `none` otherwise. -/
def usableBBox (obj : RawEntry) : Option BBox :=
  match obj.block_bbox with
  | none => none
  | some .notIterable => none
  | some (.vals vs) =>
    match coerceAll vs with
    | none => none
    | some [x1, y1, x2, y2] =>
      if 0 ≤ x1 ∧ 0 ≤ y1 ∧ 0 ≤ x2 ∧ 0 ≤ y2 then some ⟨x1, y1, x2, y2⟩ else none
    | some _ => none

/-- One iteration of the detection-extraction loop of `analyze_document`
(src/services/paddleocr/app/main.py, lines 155-168): unpack
`x1, y1, x2, y2 = map(int, obj["block_bbox"])`, then build
`Detection(bbox=BBox(...), cls=obj.get("block_label", "unknown"))`.
Returns `none` exactly when the loop body raises `KeyError`, `ValueError` or
`TypeError` and the entry is skipped. -/
def parseDetection (obj : RawEntry) : Option Detection :=
  match obj.block_bbox with
  | none => none
  | some .notIterable => none
  | some (.vals vs) =>
    match coerceAll vs with
    | none => none
    | some [x1, y1, x2, y2] =>
      if 0 ≤ x1 ∧ 0 ≤ y1 ∧ 0 ≤ x2 ∧ 0 ≤ y2 then
        match labelOf obj with
        | some l => some ⟨⟨x1, y1, x2, y2⟩, l, none⟩
        | none => none
      else none
    | some _ => none

/-- The whole normalization loop of `analyze_document`: the `detections` list
accumulated over `parsing_res_list`, invalid entries skipped. -/
def normalizeDetections (objs : List RawEntry) : List Detection :=
  objs.filterMap parseDetection

/-! ### Geometry Partitioner

Modelled from the spec: the module implementing the Geometry Partitioner
(`app/private/pipeline.py`, reached from `api.py` via
`run_preprocessing_pipeline_with_splits`) is not among the available sources,
so the partitioner is transcribed from spec section 4.1. -/

/-- A horizontal band of the page (spec section 3): ordinal position, a
full-width bounding box, and the member regions. -/
structure Band where
  index : Nat
  bbox : BBox
  members : List Detection
deriving Repr, DecidableEq

/-- Insert a region into a list sorted by top coordinate `y1`, ties broken by
`x1` ascending (spec section 4.1). -/
def insertByTop (r : Detection) : List Detection → List Detection
  | [] => [r]
  | s :: rest =>
    if r.bbox.y1 < s.bbox.y1 ∨ (r.bbox.y1 = s.bbox.y1 ∧ r.bbox.x1 ≤ s.bbox.x1) then
      r :: s :: rest
    else
      s :: insertByTop r rest

/-- Sort regions by `(y1, x1)` ascending (spec section 4.1). -/
def sortRegions : List Detection → List Detection
  | [] => []
  | r :: rest => insertByTop r (sortRegions rest)

/-- Modelled from the spec: the greedy band-growth loop of section 4.1.
The current band spans `[top, bottom)` with `members` collected so far (in
reverse order); `emitted` counts bands already closed.  The band is closed,
and a new one started at the next region, once its height has reached
`minHeight` and the band budget still allows another band; otherwise the next
region is pulled into the current band, extending its bottom edge. -/
def growBands (minHeight : Int) (maxSegments : Nat) :
    Nat → Int → Int → List Detection → List Detection → List (Int × Int × List Detection)
  | _, top, bottom, members, [] => [(top, bottom, members.reverse)]
  | emitted, top, bottom, members, r :: rest =>
    if minHeight ≤ bottom - top ∧ emitted + 1 < maxSegments then
      (top, bottom, members.reverse) ::
        growBands minHeight maxSegments (emitted + 1) r.bbox.y1
          (max r.bbox.y1 r.bbox.y2) [r] rest
    else
      growBands minHeight maxSegments emitted top (max bottom r.bbox.y2) (r :: members) rest

/-- Modelled from the spec: `partition(page_height, page_width, regions,
max_segments, min_height)` of section 4.1.  Regions are sorted by `(y1, x1)`;
bands are grown greedily starting from the page top; the final band is
extended to `page_height`; an empty region list yields a single band spanning
the whole page. -/
def partition (pageHeight pageWidth : Int) (regions : List Detection)
    (maxSegments : Nat) (minHeight : Int) : List Band :=
  match sortRegions regions with
  | [] => [⟨0, ⟨0, 0, pageWidth, pageHeight⟩, []⟩]
  | r :: rest =>
    let raw := growBands minHeight maxSegments 0 0 (max r.bbox.y1 r.bbox.y2) [r] rest
    let n := raw.length
    raw.enum.map fun p =>
      let bottom := if p.1 = n - 1 then max p.2.2.1 pageHeight else p.2.2.1
      ⟨p.1, ⟨0, p.2.1, pageWidth, bottom⟩, p.2.2.2⟩

/-! ### Content extraction and result gathering

Modelled from the spec: the Content Extraction Client (section 4.3) and the
concurrent scatter/gather of section 5 live in `app/private/pipeline.py`,
absent from the available sources. -/

/-- ExtractedContent of spec section 3: text, metadata mapping (values
modelled as strings), and an optional failure descriptor. -/
structure ExtractedContent where
  text : String
  metadata : List (String × String)
  error : Option String
deriving Repr, DecidableEq

/-- Modelled from the spec: the per-band outcome of one content-extraction
call (section 4.3).  A successful call yields the extracted text; every
failure mode yields empty text, empty metadata and a populated `error` field
instead of raising. -/
def extractOutcome : Except String String → ExtractedContent
  | .ok t => ⟨t, [], none⟩
  | .error e => ⟨"", [], some e⟩

/-- Lookup in an association list keyed by band index (first match wins). -/
def assocFind (k : Nat) : List (Nat × ExtractedContent) → Option ExtractedContent
  | [] => none
  | p :: rest => if p.1 = k then some p.2 else assocFind k rest

/-- Modelled from the spec: scatter/gather of section 5.  The per-band
extraction results arrive in completion order `order` (a list of band
indices); they are stored in a results map keyed by band index and read back
in band order `0, 1, ..., n-1`.  A band whose result never arrived reads as a
missing-result failure. -/
def gatherByKey (n : Nat) (results : Nat → ExtractedContent) (order : List Nat) :
    List ExtractedContent :=
  let m := order.map fun i => (i, results i)
  (List.range n).map fun i => (assocFind i m).getD ⟨"", [], some "missing result"⟩

/-! ### Pipeline coordinator and preprocessing service models
(src/services/preprocessing/app/public/models.py and api.py) -/

/-- Document segment with layout and content information (preprocessing
models.py, class DocumentSegment; the SegmentRecord of spec section 3).
`content` is the spec ExtractedContent so that the per-band failure
descriptor is representable; `bbox_info` pairs each member bbox with its
type. -/
structure SegmentRecord where
  bbox : BBox
  segment_type : String
  content : ExtractedContent
  confidence : Option Unit
  bbox_info : List (BBox × String)
deriving Repr, DecidableEq

/-- Translate a bbox to band-local coordinates (spec section 3: member region
coordinates translated to band-local space). -/
def toBandLocal (top : Int) (b : BBox) : BBox :=
  ⟨b.x1, b.y1 - top, b.x2, b.y2 - top⟩

/-- Modelled from the spec: merge one Band with its ExtractedContent into a
SegmentRecord (spec section 4.4). -/
def mkSegment (b : Band) (c : ExtractedContent) : SegmentRecord :=
  ⟨b.bbox, "horizontal_segment", c,
    none, b.members.map fun d => (toBandLocal b.bbox.y1 d.bbox, d.cls)⟩

/-- Modelled from the spec: `run_preprocessing_pipeline_with_splits` of
`app/private/pipeline.py` (absent from the available sources), the Pipeline
Coordinator of spec section 4.4.  Inputs that the real coordinator obtains
from the outside world are explicit parameters: the page dimensions of the
decoded image, the layout-backend response (an `Except` because an
unreachable or timed-out layout backend is fatal and propagates, section 7),
the stubbed per-band extraction responses keyed by band index, and the
completion order of the concurrent extraction calls.  Returns the list of
`(segment_image, segment_list)` pairs consumed by `process_document`
(segment images are opaque, modelled as `Unit`). -/
def run_preprocessing_pipeline_with_splits
    (pageHeight pageWidth : Int)
    (layout : Except String (List Detection))
    (bandResults : Nat → Except String String)
    (order : List Nat)
    (maxSegments : Nat) (minHeight : Int) :
    Except String (List (Unit × List SegmentRecord)) :=
  match layout with
  | .error e => .error e
  | .ok dets =>
    let bands := partition pageHeight pageWidth dets maxSegments minHeight
    let contents := gatherByKey bands.length (fun i => extractOutcome (bandResults i)) order
    .ok ((bands.zip contents).map fun p => ((), [mkSegment p.1 p.2]))

/-- Response model for document processing (preprocessing models.py, class
ProcessResponse). -/
structure ProcessResponse where
  segments : List SegmentRecord
  total_segments : Nat
  elapsed_ms : Int
  status : String
deriving Repr, DecidableEq

/-- Outcome of one endpoint invocation: a response, or an HTTPException with
status code and detail. -/
inductive ApiResult where
  | ok : ProcessResponse → ApiResult
  | httpError : Nat → String → ApiResult
deriving Repr, DecidableEq

/-- The status field of a successful response, `none` on an HTTP error. -/
def ApiResult.statusOf : ApiResult → Option String
  | .ok r => some r.status
  | .httpError _ _ => none

/-- Health check response model (preprocessing models.py, class
HealthResponse). -/
structure HealthResponse where
  status : String
  service : String
deriving Repr, DecidableEq

/-- `health_check` of src/services/preprocessing/app/public/api.py, lines
27-34: unconditionally returns `HealthResponse(status="healthy",
service="Preprocessing")`. -/
def health_check : HealthResponse :=
  ⟨"healthy", "Preprocessing"⟩

/-- The content-type guard of `process_document`:
`image.content_type.startswith("image/")`, as a prefix test on the character
sequence of the string. -/
def startsWithImageSlash (ct : String) : Bool :=
  "image/".data.isPrefixOf ct.data

/-- `process_document` of src/services/preprocessing/app/public/api.py,
lines 37-101.  The uploaded file is represented by its content type
(`none` when absent; Python treats the empty string like `none`, and the
empty string does not start with `image/` either).  The pipeline call is a
function of the `max_segments` and `min_height` arguments, which the endpoint
forwards unvalidated; `.error` models `run_preprocessing_pipeline_with_splits`
raising, which the endpoint converts to an HTTP 500.  `elapsed` is the
externally supplied wall-clock measurement.  The second component of the
result is the trace of pipeline invocations with their arguments (empty when
the endpoint rejects the request before calling the pipeline). -/
def process_document (content_type : Option String)
    (pipelineCall : Int → Int → Except String (List (Unit × List SegmentRecord)))
    (max_segments min_height : Int) (elapsed : Int) :
    ApiResult × List (Int × Int) :=
  match content_type with
  | none => (.httpError 400 "File must be an image (JPEG, PNG, etc.)", [])
  | some ct =>
    if startsWithImageSlash ct then
      match pipelineCall max_segments min_height with
      | .error e =>
        (.httpError 500 ("Failed to process document: " ++ e), [(max_segments, min_height)])
      | .ok results =>
        let segments := results.foldl (fun acc p => acc ++ p.2) []
        (.ok ⟨segments, segments.length, elapsed, "success"⟩, [(max_segments, min_height)])
    else
      (.httpError 400 "File must be an image (JPEG, PNG, etc.)", [])

/-- Erase the elapsed-time field of a successful response, for comparisons up
to timing. -/
def stripElapsed : ApiResult → ApiResult
  | .ok r => .ok { r with elapsed_ms := 0 }
  | e => e

/-- The segments of a successful response, `[]` on an HTTP error. -/
def ApiResult.segmentsOf : ApiResult → List SegmentRecord
  | .ok r => r.segments
  | .httpError _ _ => []

/-! ### Concrete scenarios used by counterexamples and witnesses -/

/-- Three detections on a 300x100 page that partition into three bands under
`max_segments = 3`, `min_height = 50`. -/
def threeBandDets : List Detection :=
  [⟨⟨0, 0, 100, 60⟩, "text", none⟩,
   ⟨⟨0, 100, 100, 160⟩, "text", none⟩,
   ⟨⟨0, 200, 100, 260⟩, "text", none⟩]

/-- Stubbed extraction backend in which exactly the call for band 1 fails. -/
def oneFailingBand : Nat → Except String String :=
  fun i => if i = 1 then .error "timeout" else .ok "ok text"

/-- The pipeline call of the three-band scenario, with completion order
`[2, 0, 1]` (the failing band completes last). -/
def threeBandCall : Int → Int → Except String (List (Unit × List SegmentRecord)) :=
  fun ms mh =>
    run_preprocessing_pipeline_with_splits 300 100 (.ok threeBandDets)
      oneFailingBand [2, 0, 1] ms.toNat mh

/-- A raw layout entry with a usable bbox and no `block_label` key. -/
def entryNoLabel : RawEntry :=
  ⟨some (.vals [.intLike 1, .intLike 2, .intLike 3, .intLike 4]), none⟩

/-- A raw layout entry whose bbox coordinates far exceed any plausible page
dimension. -/
def entryHugeBBox : RawEntry :=
  ⟨some (.vals [.intLike 0, .intLike 0, .intLike 5000, .intLike 5000]),
   some (.strVal "table")⟩

/-! ## Theorems -/

/-- Helper: one loop iteration keeps an entry exactly when it yields both a
usable bbox and a usable label, and then uses precisely those. -/
theorem parseDetection_eq (obj : RawEntry) :
    parseDetection obj =
      match usableBBox obj, labelOf obj with
      | some b, some l => some ⟨b, l, none⟩
      | some _, none => none
      | none, _ => none := by
  rcases obj with ⟨bb, lbl⟩
  cases bb with
  | none => rfl
  | some f =>
    cases f with
    | notIterable => rfl
    | vals vs =>
      simp only [parseDetection, usableBBox]
      cases hc : coerceAll vs with
      | none => rfl
      | some coords =>
        rcases coords with _ | ⟨x1, _ | ⟨y1, _ | ⟨x2, _ | ⟨y2, _ | ⟨z, t⟩⟩⟩⟩⟩ <;> try rfl
        by_cases hnn : 0 ≤ x1 ∧ 0 ≤ y1 ∧ 0 ≤ x2 ∧ 0 ≤ y2
        · cases hl : labelOf ⟨some (.vals vs), lbl⟩ <;> simp [hnn, hl]
        · simp [hnn]

/-- Helper: the membership of a detection in the normalized list, entry by
entry. -/
theorem normalizeDetections_cons (o : RawEntry) (rest : List RawEntry) :
    normalizeDetections (o :: rest) =
      (match parseDetection o with
        | some d => d :: normalizeDetections rest
        | none => normalizeDetections rest) := by
  simp only [normalizeDetections, List.filterMap_cons]
  cases parseDetection o <;> rfl

/-- C3 counterexample: the claim says an entry missing the required label
field is dropped by normalization; in the code a missing `block_label`
defaults to `"unknown"` and the entry is kept, so a one-entry list with a
usable bbox and no label normalizes to a one-element region list instead of
the empty list. -/
theorem c3_missing_label_kept :
    normalizeDetections [entryNoLabel] = [⟨⟨1, 2, 3, 4⟩, "unknown", none⟩] ∧
      normalizeDetections [entryNoLabel] ≠ [] := by
  exact ⟨rfl, by decide⟩

/-- C3 amended: normalization drops exactly the raw entries without a usable
bbox (missing, non-iterable, not four int-coercible coordinates, or a
negative coordinate) or with a present-but-non-string label; an entry whose
label field is missing is kept with label defaulted to `"unknown"`.  The
returned list consists, in order, of exactly the kept entries with their
coerced bbox and effective label. -/
theorem normalizeDetections_characterization :
    ∀ objs : List RawEntry,
      normalizeDetections objs =
        (objs.filter fun o => (usableBBox o).isSome && (labelOf o).isSome).map
          fun o => ⟨(usableBBox o).getD ⟨0, 0, 0, 0⟩, (labelOf o).getD "unknown", none⟩ := by
  intro objs
  induction objs with
  | nil => rfl
  | cons o rest ih =>
    rw [normalizeDetections_cons, parseDetection_eq o, List.filter_cons]
    cases hb : usableBBox o with
    | none => simpa [hb] using ih
    | some b =>
      cases hl : labelOf o with
      | none => simpa [hb, hl] using ih
      | some l => simpa [hb, hl] using ih

/-- C4 counterexample: the claim says every kept bbox coordinate is clipped
to `[0, page_dimension]`; the code performs no clipping, so an entry whose
coordinates are 5000 is kept verbatim even though any real page dimension
(for instance 1000) is smaller. -/
theorem c4_no_clipping :
    ∃ d : Detection, normalizeDetections [entryHugeBBox] = [d] ∧
      d.bbox.x2 = 5000 ∧ ¬(d.bbox.x2 ≤ 1000) := by
  exact ⟨⟨⟨0, 0, 5000, 5000⟩, "table", none⟩, rfl, rfl, by decide⟩

/-- C4 amended: for every kept entry the coordinates are the integer
coercions of the raw bbox values, taken verbatim (no clipping to the page
dimension is applied), and they are nonnegative because entries with a
negative coordinate are dropped by the `ge=0` validation rather than clipped
to 0. -/
theorem parseDetection_coords_unclipped :
    ∀ (obj : RawEntry) (d : Detection), parseDetection obj = some d →
      d.bbox.nonneg ∧
        ∃ vs, obj.block_bbox = some (.vals vs) ∧
          coerceAll vs = some [d.bbox.x1, d.bbox.y1, d.bbox.x2, d.bbox.y2] := by
  intro obj d h
  rcases obj with ⟨bb, lbl⟩
  cases bb with
  | none => exact absurd h (by simp [parseDetection])
  | some f =>
    cases f with
    | notIterable => exact absurd h (by simp [parseDetection])
    | vals vs =>
      simp only [parseDetection] at h
      cases hc : coerceAll vs with
      | none => rw [hc] at h; exact absurd h (by simp)
      | some coords =>
        rw [hc] at h
        rcases coords with _ | ⟨x1, _ | ⟨y1, _ | ⟨x2, _ | ⟨y2, _ | ⟨z, t⟩⟩⟩⟩⟩ <;>
          simp only [] at h <;> try exact Option.noConfusion h
        by_cases hnn : 0 ≤ x1 ∧ 0 ≤ y1 ∧ 0 ≤ x2 ∧ 0 ≤ y2
        · rw [if_pos hnn] at h
          cases hl : labelOf ⟨some (.vals vs), lbl⟩ with
          | none => rw [hl] at h; exact absurd h (by simp)
          | some l =>
            rw [hl] at h
            cases h
            exact ⟨hnn, vs, rfl, hc⟩
        · rw [if_neg hnn] at h
          exact absurd h (by simp)

/-- C4 witness: the amended property evaluated on the concrete oversized
entry. -/
theorem parseDetection_coords_unclipped_witness :
    (Detection.mk ⟨0, 0, 5000, 5000⟩ "table" none).bbox.nonneg ∧
      ∃ vs, entryHugeBBox.block_bbox = some (.vals vs) ∧
        coerceAll vs = some [0, 0, 5000, 5000] :=
  parseDetection_coords_unclipped entryHugeBBox ⟨⟨0, 0, 5000, 5000⟩, "table", none⟩ rfl

/-- C9: on an empty region set the partitioner returns exactly one band,
indexed 0, spanning the full page width and the full page height, with no
member regions. -/
theorem partition_empty_regions :
    ∀ (pageHeight pageWidth : Int) (maxSegments : Nat) (minHeight : Int),
      partition pageHeight pageWidth [] maxSegments minHeight =
        [⟨0, ⟨0, 0, pageWidth, pageHeight⟩, []⟩] := by
  intro pageHeight pageWidth maxSegments minHeight
  rfl

/-- C10: the preprocessing health endpoint unconditionally reports status
`"healthy"` and service `"Preprocessing"`; it consults no state, so it can
never report unready. -/
theorem health_check_always_healthy :
    health_check.status = "healthy" ∧ health_check.service = "Preprocessing" :=
  ⟨rfl, rfl⟩

/-- Helper: looking a band index up in the results map built from a
completion order yields that band result whenever the index completed, first
arrival winning — and all arrivals for one key carry the same value. -/
theorem assocFind_map (k : Nat) (results : Nat → ExtractedContent) (order : List Nat) :
    assocFind k (order.map fun i => (i, results i)) =
      if k ∈ order then some (results k) else none := by
  induction order with
  | nil => rfl
  | cons a rest ih =>
    simp only [List.map_cons, assocFind, List.mem_cons]
    by_cases h : a = k
    · subst h
      simp
    · simp only [h, if_false]
      rw [ih]
      by_cases hk : k ∈ rest
      · simp [hk, Ne.symm h]
      · simp [hk, Ne.symm h]

/-- Helper: when every band index below `n` appears in the completion order,
the gathered list is the per-band results read off in band order. -/
theorem gatherByKey_complete (n : Nat) (results : Nat → ExtractedContent)
    (order : List Nat) (h : ∀ i, i < n → i ∈ order) :
    gatherByKey n results order = (List.range n).map results := by
  unfold gatherByKey
  apply List.map_congr_left
  intro i hi
  rw [List.mem_range] at hi
  rw [assocFind_map, if_pos (h i hi)]
  rfl

/-- Helper: with a complete completion order the whole pipeline result is the
band list zipped with the per-band extraction outcomes in band-index order. -/
theorem pipeline_gather_eq (ph pw : Int) (dets : List Detection)
    (br : Nat → Except String String) (ord : List Nat) (ms : Nat) (mh : Int)
    (h : ∀ i, i < (partition ph pw dets ms mh).length → i ∈ ord) :
    run_preprocessing_pipeline_with_splits ph pw (.ok dets) br ord ms mh =
      .ok (((partition ph pw dets ms mh).zip
          ((List.range (partition ph pw dets ms mh).length).map
            fun i => extractOutcome (br i))).map fun p => ((), [mkSegment p.1 p.2])) := by
  show Except.ok (((partition ph pw dets ms mh).zip
      (gatherByKey (partition ph pw dets ms mh).length
        (fun i => extractOutcome (br i)) ord)).map fun p => ((), [mkSegment p.1 p.2])) = _
  rw [gatherByKey_complete _ _ _ h]

/-- C6: the final segments are in band top-to-bottom order, independent of
the completion order of the concurrent per-band extraction calls: any two
complete completion orders yield the same pipeline result, namely the bands
zipped with their extraction outcomes keyed by band index. -/
theorem pipeline_segment_order_independent :
    ∀ (ph pw : Int) (dets : List Detection) (br : Nat → Except String String)
      (ord1 ord2 : List Nat) (ms : Nat) (mh : Int),
      (∀ i, i < (partition ph pw dets ms mh).length → i ∈ ord1) →
      (∀ i, i < (partition ph pw dets ms mh).length → i ∈ ord2) →
      run_preprocessing_pipeline_with_splits ph pw (.ok dets) br ord1 ms mh =
          run_preprocessing_pipeline_with_splits ph pw (.ok dets) br ord2 ms mh ∧
        run_preprocessing_pipeline_with_splits ph pw (.ok dets) br ord1 ms mh =
          .ok (((partition ph pw dets ms mh).zip
              ((List.range (partition ph pw dets ms mh).length).map
                fun i => extractOutcome (br i))).map fun p => ((), [mkSegment p.1 p.2])) := by
  intro ph pw dets br ord1 ord2 ms mh h1 h2
  rw [pipeline_gather_eq ph pw dets br ord1 ms mh h1,
    pipeline_gather_eq ph pw dets br ord2 ms mh h2]
  exact ⟨rfl, rfl⟩

/-- C6 witness: the order-independence applied to the three-band scenario
with two different completion orders. -/
theorem pipeline_segment_order_independent_witness :
    run_preprocessing_pipeline_with_splits 300 100 (.ok threeBandDets)
        oneFailingBand [2, 0, 1] 3 50 =
      run_preprocessing_pipeline_with_splits 300 100 (.ok threeBandDets)
        oneFailingBand [0, 1, 2] 3 50 ∧
    run_preprocessing_pipeline_with_splits 300 100 (.ok threeBandDets)
        oneFailingBand [2, 0, 1] 3 50 =
      .ok (((partition 300 100 threeBandDets 3 50).zip
          ((List.range (partition 300 100 threeBandDets 3 50).length).map
            fun i => extractOutcome (oneFailingBand i))).map
          fun p => ((), [mkSegment p.1 p.2])) :=
  pipeline_segment_order_independent 300 100 threeBandDets oneFailingBand
    [2, 0, 1] [0, 1, 2] 3 50 (by decide) (by decide)

/-- C1 counterexample: in the three-band scenario in which exactly the
extraction call of band 1 fails, the returned result has status `"success"`,
not `"partial"` as claimed — `process_document` hard-codes `status="success"`
whenever the pipeline call returns. -/
theorem c1_partial_status_refuted :
    ApiResult.statusOf
        (process_document (some "image/png") threeBandCall 3 50 7).1 = some "success" ∧
      ApiResult.statusOf
        (process_document (some "image/png") threeBandCall 3 50 7).1 ≠ some "partial" ∧
      (ApiResult.segmentsOf
        (process_document (some "image/png") threeBandCall 3 50 7).1).length = 3 ∧
      ((ApiResult.segmentsOf
          (process_document (some "image/png") threeBandCall 3 50 7).1).map
        fun s => s.content.error.isSome) = [false, true, false] := by
  exact ⟨rfl, by decide, rfl, rfl⟩

/-- C1 amended: whenever the pipeline call returns, the endpoint reports
status `"success"` regardless of per-band extraction errors; in particular,
if exactly one of three bands fails, the result has status `"success"`,
three segments, and the failing segment content carries the error descriptor
(with empty text) while the other two carry the extracted text. -/
theorem process_document_status_hardcoded_success :
    (∀ (xs : List (Unit × List SegmentRecord)) (ms mh el : Int),
      ApiResult.statusOf
        (process_document (some "image/png") (fun _ _ => Except.ok xs) ms mh el).1 =
          some "success") ∧
    ApiResult.statusOf
        (process_document (some "image/png") threeBandCall 3 50 7).1 = some "success" ∧
      (ApiResult.segmentsOf
        (process_document (some "image/png") threeBandCall 3 50 7).1).length = 3 ∧
      ((ApiResult.segmentsOf
          (process_document (some "image/png") threeBandCall 3 50 7).1).map
        fun s => s.content.error.isSome) = [false, true, false] ∧
      ((ApiResult.segmentsOf
          (process_document (some "image/png") threeBandCall 3 50 7).1).map
        fun s => s.content.text) = ["ok text", "", "ok text"] := by
  exact ⟨fun xs ms mh el => rfl, rfl, rfl, rfl, rfl⟩

/-- C2 counterexample: with `max_segments = 0` (out of the claimed valid
range) and an image content type the endpoint reports no input error — the
pipeline is invoked with the out-of-range arguments (trace `[(0, 50)]`) and
the request succeeds. -/
theorem c2_out_of_range_not_rejected :
    (process_document (some "image/png") (fun _ _ => Except.ok []) 0 50 3).2 = [(0, 50)] ∧
      ApiResult.statusOf
        (process_document (some "image/png") (fun _ _ => Except.ok []) 0 50 3).1 =
          some "success" :=
  ⟨rfl, rfl⟩

/-- C2 amended: the only input validation performed before the pipeline call
is the content-type check: a missing content type or one that does not start
with `image/` is rejected immediately with HTTP 400 and no pipeline call;
when the content type starts with `image/` the pipeline is always invoked
with the given `max_segments` and `min_height`, which are not range-checked
(decodability of the payload is likewise not checked before the call). -/
theorem process_document_input_validation :
    (∀ (pf : Int → Int → Except String (List (Unit × List SegmentRecord))) (ms mh el : Int),
      process_document none pf ms mh el =
        (.httpError 400 "File must be an image (JPEG, PNG, etc.)", [])) ∧
    (∀ (ct : String) (pf : Int → Int → Except String (List (Unit × List SegmentRecord)))
      (ms mh el : Int), startsWithImageSlash ct = false →
        process_document (some ct) pf ms mh el =
          (.httpError 400 "File must be an image (JPEG, PNG, etc.)", [])) ∧
    (∀ (ct : String) (pf : Int → Int → Except String (List (Unit × List SegmentRecord)))
      (ms mh el : Int), startsWithImageSlash ct = true →
        (process_document (some ct) pf ms mh el).2 = [(ms, mh)]) := by
  refine ⟨fun pf ms mh el => rfl, ?_, ?_⟩
  · intro ct pf ms mh el h
    simp [process_document, h]
  · intro ct pf ms mh el h
    unfold process_document
    simp only [h, if_true]
    cases pf ms mh <;> rfl

/-- C2 witness: the amended validation behaviour at concrete inputs — a
missing content type, a textual content type, and an image content type with
out-of-range bounds. -/
theorem process_document_input_validation_witness :
    process_document none (fun _ _ => Except.ok []) 1 1 0 =
        (.httpError 400 "File must be an image (JPEG, PNG, etc.)", []) ∧
      process_document (some "text/plain") (fun _ _ => Except.ok []) 1 1 0 =
        (.httpError 400 "File must be an image (JPEG, PNG, etc.)", []) ∧
      (process_document (some "image/png") (fun _ _ => Except.ok []) 0 (-5) 0).2 = [(0, -5)] :=
  ⟨process_document_input_validation.1 (fun _ _ => Except.ok []) 1 1 0,
    process_document_input_validation.2.1 "text/plain" (fun _ _ => Except.ok []) 1 1 0 rfl,
    process_document_input_validation.2.2 "image/png" (fun _ _ => Except.ok []) 0 (-5) 0 rfl⟩

/-- C5: when the layout-backend call fails, the failure propagates out of the
pipeline and the endpoint fails the whole request with an HTTP 500 carrying
the upstream failure message; no response with segments (partial or
otherwise) is produced. -/
theorem process_document_layout_failure :
    ∀ (ct : String), startsWithImageSlash ct = true →
      ∀ (ph pw : Int) (e : String) (br : Nat → Except String String)
        (ord : List Nat) (ms mh el : Int),
        process_document (some ct)
            (fun a b =>
              run_preprocessing_pipeline_with_splits ph pw (.error e) br ord a.toNat b)
            ms mh el =
          (.httpError 500 ("Failed to process document: " ++ e), [(ms, mh)]) := by
  intro ct h ph pw e br ord ms mh el
  unfold process_document
  simp only [h, if_true]
  rfl

/-- C5 witness: the layout-failure behaviour at a concrete request. -/
theorem process_document_layout_failure_witness :
    process_document (some "image/png")
        (fun a b =>
          run_preprocessing_pipeline_with_splits 300 100 (.error "connection refused")
            oneFailingBand [0] a.toNat b)
        8 50 4 =
      (.httpError 500 ("Failed to process document: " ++ "connection refused"), [(8, 50)]) :=
  process_document_layout_failure "image/png" rfl 300 100 "connection refused"
    oneFailingBand [0] 8 50 4

/-- C7: every successful response has `total_segments` equal to the length of
its segments list. -/
theorem process_document_total_segments :
    ∀ (ct : Option String)
      (pf : Int → Int → Except String (List (Unit × List SegmentRecord)))
      (ms mh el : Int) (r : ProcessResponse),
      (process_document ct pf ms mh el).1 = .ok r →
      r.total_segments = r.segments.length := by
  intro ct pf ms mh el r h
  unfold process_document at h
  cases ct with
  | none => exact absurd h (by simp)
  | some ct =>
    by_cases hs : startsWithImageSlash ct
    · simp only [hs, if_true] at h
      cases hp : pf ms mh with
      | error e => rw [hp] at h; exact absurd h (by simp)
      | ok xs =>
        rw [hp] at h
        simp only [] at h
        cases h
        rfl
    · simp only [hs, if_false] at h
      exact absurd h (by simp)

/-- C7 witness: the invariant at a concrete successful request. -/
theorem process_document_total_segments_witness :
    (ProcessResponse.mk [] 0 9 "success").total_segments =
      (ProcessResponse.mk [] 0 9 "success").segments.length :=
  process_document_total_segments (some "image/png") (fun _ _ => Except.ok []) 1 1 9
    ⟨[], 0, 9, "success"⟩ rfl

/-- C8: two invocations with identical content type, identical stubbed
layout and extraction responses and identical bounds produce identical
results up to the elapsed-time field, for any two complete completion orders
of the concurrent extraction calls and any two timing measurements. -/
theorem process_document_deterministic :
    ∀ (ct : Option String) (ph pw : Int) (dets : List Detection)
      (br : Nat → Except String String) (ord1 ord2 : List Nat) (ms mh el1 el2 : Int),
      (∀ i, i < (partition ph pw dets ms.toNat mh).length → i ∈ ord1) →
      (∀ i, i < (partition ph pw dets ms.toNat mh).length → i ∈ ord2) →
      stripElapsed (process_document ct
          (fun a b =>
            run_preprocessing_pipeline_with_splits ph pw (.ok dets) br ord1 a.toNat b)
          ms mh el1).1 =
        stripElapsed (process_document ct
          (fun a b =>
            run_preprocessing_pipeline_with_splits ph pw (.ok dets) br ord2 a.toNat b)
          ms mh el2).1 := by
  intro ct ph pw dets br ord1 ord2 ms mh el1 el2 h1 h2
  have hrun : run_preprocessing_pipeline_with_splits ph pw (.ok dets) br ord1 ms.toNat mh =
      run_preprocessing_pipeline_with_splits ph pw (.ok dets) br ord2 ms.toNat mh := by
    rw [pipeline_gather_eq _ _ _ _ _ _ _ h1, pipeline_gather_eq _ _ _ _ _ _ _ h2]
  cases ct with
  | none => rfl
  | some ct =>
    by_cases hs : startsWithImageSlash ct
    · unfold process_document
      simp only [hs, if_true, hrun]
      cases run_preprocessing_pipeline_with_splits ph pw (.ok dets) br ord2 ms.toNat mh <;>
        rfl
    · simp [process_document, hs]

/-- C8 witness: determinism at the concrete three-band scenario, with the two
runs differing in completion order and in timing. -/
theorem process_document_deterministic_witness :
    stripElapsed (process_document (some "image/png")
        (fun a b =>
          run_preprocessing_pipeline_with_splits 300 100 (.ok threeBandDets)
            oneFailingBand [2, 0, 1] a.toNat b)
        3 50 11).1 =
      stripElapsed (process_document (some "image/png")
        (fun a b =>
          run_preprocessing_pipeline_with_splits 300 100 (.ok threeBandDets)
            oneFailingBand [0, 1, 2] a.toNat b)
        3 50 22).1 :=
  process_document_deterministic (some "image/png") 300 100 threeBandDets oneFailingBand
    [2, 0, 1] [0, 1, 2] 3 50 11 22 (by decide) (by decide)

end DocGuard
